import Mathlib

/-
  Verification of the request-orchestration pipeline of src/api/python/swap.py.

  The pipeline part of the program (face_swap and its helper functions) is
  embedded as explicit state passing over a World record (filesystem model,
  log list, instrumentation trace) together with an exception monad: a
  computation of type PyM A takes an Oracle (the results of every call into
  the external libraries: insightface, cv2, gfpgan, torch, shutil, os) and a
  World, and returns an Except value together with the updated World.  The
  try/except blocks of the source are embedded by tryE.  Wall-clock items
  (the timestamps of log lines, time.time) carry no information used by any
  claim and are abstracted away from the log text.

  The pixel-level blending of perform_face_swap (swap.py lines 128-133) is
  embedded separately, over exact rational arithmetic, at the end of the
  definitions section.
-/

namespace FaceSwap

/-- Exception payload: the str(e) of a raised Python exception.  The
traceback text appended by traceback.format_exc() is runtime introspection
and is abstracted away. -/
abbrev Exc := String

/-- Opaque handle for a PIL input image (gradio type pil). -/
abbrev PImg := Nat

/-- Opaque handle for a decoded numpy raster (BGR ndarray). -/
abbrev NImg := Nat

/-- Opaque handle for an insightface detected face object. -/
abbrev Face := Nat

/-- Opaque handle for the FaceAnalysis model. -/
abbrev App := Nat

/-- Opaque handle for the inswapper model. -/
abbrev Swapper := Nat

/-- Opaque handle for the GFPGANer model. -/
abbrev Enh := Nat

/-- Instrumentation events: one per call into an external library, recorded
in order.  Events carry no payload so that traces stay decidable. -/
inductive Ev where
  | rmtreeOut    -- shutil.rmtree(output_dir), swap.py line 171
  | mkdirsOut    -- os.makedirs(output_dir), line 172
  | validate     -- the path checks of validate_paths, lines 38-46
  | initFA       -- FaceAnalysis(...) + prepare, lines 64-65
  | cvt          -- cv2.cvtColor, lines 80, 81, 124
  | detect       -- app.get(...), lines 83, 84
  | loadSwapper  -- insightface.model_zoo.get_model, line 112
  | swapGet      -- swapper.get(...), line 126
  | blend        -- the mask blend, lines 128-133
  | initGfpgan   -- GFPGANer(...), line 145
  | enhance      -- enhancer.enhance(...), line 153
  | imwrite      -- cv2.imwrite, line 155
  deriving DecidableEq, BEq, Repr

/-- The mutable world: a small filesystem model (the paths validate_paths
reads and the output directory face_swap rewrites), the global log_messages
list, and the instrumentation trace. -/
structure World where
  files : List String
  dirs : List String
  logs : List String
  trace : List Ev
  deriving DecidableEq, Repr

/-- Results of every external call the pipeline makes.  An Except Exc value
models that any such call may raise. -/
structure Oracle where
  faInit : Except Exc App
  cvtColor : PImg → Except Exc NImg
  detect : App → NImg → Except Exc (List Face)
  loadSwapper : Except Exc Swapper
  swapGet : Swapper → Face → Face → NImg → Except Exc NImg
  blend : NImg → NImg → Face → Except Exc NImg
  gfpganInit : Except Exc Enh
  enhance : Enh → NImg → Except Exc NImg
  imwrite : String → NImg → Except Exc Unit
  rmtree : Except Exc Unit
  makedirs : Except Exc Unit
  cudaAvailable : Bool

/-- A Python computation: exception-raising, state passing, reading the
oracle. -/
def PyM (α : Type) : Type := Oracle → World → Except Exc α × World

/-- Return. -/
def ret {α : Type} (a : α) : PyM α := fun _ w => (.ok a, w)

/-- Sequencing: an uncaught exception short-circuits but keeps the state
mutations made so far, as in Python. -/
def bindE {α β : Type} (m : PyM α) (k : α → PyM β) : PyM β := fun o w =>
  match m o w with
  | (.ok a, w1) => k a o w1
  | (.error e, w1) => (.error e, w1)

/-- A raise statement. -/
def raiseE {α : Type} (e : Exc) : PyM α := fun _ w => (.error e, w)

/-- A try/except block: the handler receives str(e) and runs from the state
at the raise point. -/
def tryE {α : Type} (m : PyM α) (h : Exc → PyM α) : PyM α := fun o w =>
  match m o w with
  | (.ok a, w1) => (.ok a, w1)
  | (.error e, w1) => h e o w1

/-- Read the current world (the os.path queries read through this). -/
def getWorld : PyM World := fun _ w => (.ok w, w)

/-- Record an instrumentation event. -/
def record (ev : Ev) : PyM Unit := fun _ w =>
  (.ok (), { w with trace := w.trace ++ [ev] })

/-- An external call: records its event, returns whatever the oracle says
(possibly an exception). -/
def callO {α : Type} (ev : Ev) (f : Oracle → Except Exc α) : PyM α := fun o w =>
  (f o, { w with trace := w.trace ++ [ev] })

/-- Paths, as in swap.py lines 20-23 (os.path.join with the posix
separator). -/
def model_path : String := "models/inswapper_128.onnx"

/-- Path of the GFPGAN weights file (line 21). -/
def gfpgan_path : String := "gfpgan/weights/GFPGANv1.4.pth"

/-- Path of the buffalo_l model directory (line 22). -/
def buffalo_l_path : String := "models/buffalo_l"

/-- The output directory (line 23). -/
def output_dir : String := "output"

/-- The fixed output file path built at line 154. -/
def output_path : String := output_dir ++ "/output.jpg"

/-- The five files required inside buffalo_l (line 44). -/
def required_files : List String :=
  ["1k3d68.onnx", "2d106det.onnx", "det_10g.onnx", "genderage.onnx", "w600k_r50.onnx"]

/-- os.path.isfile. -/
def isfile (w : World) (p : String) : Prop := p ∈ w.files

instance (w : World) (p : String) : Decidable (isfile w p) := by
  unfold isfile; infer_instance

/-- os.path.isdir. -/
def isdir (w : World) (p : String) : Prop := p ∈ w.dirs

instance (w : World) (p : String) : Decidable (isdir w p) := by
  unfold isdir; infer_instance

/-- os.path.exists. -/
def pyexists (w : World) (p : String) : Prop := p ∈ w.files ∨ p ∈ w.dirs

instance (w : World) (p : String) : Decidable (pyexists w p) := by
  unfold pyexists; infer_instance

/-- log_message (swap.py lines 28-33): appends to the global log list and
returns the joined log text.  The wall-clock timestamp prefix is
abstracted away. -/
def log_message (message : String) : PyM String := fun _ w =>
  let w1 := { w with logs := w.logs ++ [message] }
  (.ok ("\n".intercalate w1.logs), w1)

/-- The global log_messages = [] reset at the top of face_swap (line 165). -/
def resetLogs : PyM Unit := fun _ w => (.ok (), { w with logs := [] })

/-- The pure check sequence of validate_paths (lines 38-46): two isfile
checks in loop order, the isdir check, then the five-file completeness
check.  Returns the (valid, message) pair of the source. -/
def validate_paths_check (w : World) : Bool × String :=
  if ¬ isfile w model_path then
    (false, "Error: File not found at " ++ model_path)
  else if ¬ isfile w gfpgan_path then
    (false, "Error: File not found at " ++ gfpgan_path)
  else if ¬ isdir w buffalo_l_path then
    (false, "Error: buffalo_l directory not found at " ++ buffalo_l_path ++
      ". Please download and extract buffalo_l.zip from https://github.com/deepinsight/insightface/releases/download/v0.7/buffalo_l.zip to " ++
      buffalo_l_path)
  else if ¬ required_files.all (fun f => decide (pyexists w (buffalo_l_path ++ "/" ++ f))) then
    (false, "Error: buffalo_l directory at " ++ buffalo_l_path ++
      " is incomplete. Please ensure it contains " ++ ", ".intercalate required_files)
  else
    (true, "All paths validated successfully")

/-- validate_paths (swap.py lines 35-47): logs, then runs the pure checks
against the filesystem.  It performs reads only: no download, no write. -/
def validate_paths : PyM (Bool × String) :=
  bindE (log_message "Validating file paths...") fun _ =>
  bindE (record Ev.validate) fun _ =>
  bindE getWorld fun w =>
  ret (validate_paths_check w)

/-- The torch.cuda.is_available() log line of line 66. -/
def cuda_log : PyM String := fun o w =>
  log_message ("PyTorch CUDA available: " ++
    (if o.cudaAvailable then "True" else "False")) o w

/-- initialize_face_analysis (swap.py lines 49-71): builds the FaceAnalysis
model (an external call that may raise), and returns (app, None) on success
or (None, joined-log-text) on an exception. -/
def initialize_face_analysis : PyM (Option App × Option String) :=
  tryE (
    bindE (log_message "Initializing FaceAnalysis...") fun _ =>
    bindE (callO Ev.initFA (fun o => o.faInit)) fun app =>
    bindE cuda_log fun _ =>
    bindE (log_message "FaceAnalysis initialized successfully") fun _ =>
    ret (some app, none))
  (fun e =>
    bindE (log_message ("Error initializing FaceAnalysis: " ++ e)) fun j =>
    ret (none, some j))

/-- cv2.cvtColor(np.array(img), cv2.COLOR_RGB2BGR) on a possibly-None
image: as in Python, calling it on None raises. -/
def cvtOp (img : Option PImg) : PyM NImg :=
  match img with
  | none => raiseE "TypeError: cvtColor on None"
  | some p => callO Ev.cvt (fun o => o.cvtColor p)

/-- app.get(img) on a possibly-None app handle: raises on None, as the
attribute access would in Python. -/
def detectOp (app : Option App) (img : NImg) : PyM (List Face) :=
  match app with
  | none => raiseE "AttributeError: NoneType has no attribute get"
  | some a => callO Ev.detect (fun o => o.detect a img)

/-- load_and_detect_faces (swap.py lines 73-95): None check, two cvtColor
conversions, two detections, the zero-face guard at lines 89-91. -/
def load_and_detect_faces (app : Option App) (source_img target_img : Option PImg) :
    PyM (Option (List Face) × Option (List Face) × Option String) :=
  tryE (
    bindE (log_message "Loading and detecting faces...") fun _ =>
    if source_img = none ∨ target_img = none then
      ret (none, none, some "Error: Source or target image is None")
    else
    bindE (cvtOp source_img) fun source_img_np =>
    bindE (cvtOp target_img) fun target_img_np =>
    bindE (detectOp app source_img_np) fun source_faces =>
    bindE (detectOp app target_img_np) fun target_faces =>
    bindE (log_message ("Source image: " ++ toString source_faces.length ++ " faces detected")) fun _ =>
    bindE (log_message ("Target image: " ++ toString target_faces.length ++ " faces detected")) fun _ =>
    if source_faces.length = 0 ∨ target_faces.length = 0 then
      ret (none, none, some "Error: No faces detected in source or target image!")
    else
      ret (some source_faces, some target_faces, none))
  (fun e =>
    bindE (log_message ("Error in load_and_detect_faces: " ++ e)) fun j =>
    ret (none, none, some j))

/-- Python list indexing faces[0] on a possibly-None list: raises
IndexError on an empty list and TypeError on None. -/
def pyIndex0 {α : Type} (l : Option (List α)) : PyM α :=
  match l with
  | none => raiseE "TypeError: NoneType is not subscriptable"
  | some [] => raiseE "list index out of range"
  | some (a :: _) => ret a

/-- select_source_face (swap.py lines 97-106): takes source_faces[0] inside
a try block; the except block converts any exception into (None, joined
log text). -/
def select_source_face (source_faces : Option (List Face)) :
    PyM (Option Face × Option String) :=
  tryE (
    bindE (log_message "Selecting source face...") fun _ =>
    bindE (pyIndex0 source_faces) fun source_face =>
    bindE (log_message "Using first detected source face") fun _ =>
    ret (some source_face, none))
  (fun e =>
    bindE (log_message ("Error selecting source face: " ++ e)) fun j =>
    ret (none, some j))

/-- swapper.get(result, target_face, source_face, paste_back=True) on a
possibly-None source face. -/
def swapOp (sw : Swapper) (target_face : Face) (source_face : Option Face)
    (img : NImg) : PyM NImg :=
  match source_face with
  | none => raiseE "TypeError: source face is None"
  | some sf => callO Ev.swapGet (fun o => o.swapGet sw target_face sf img)

/-- The mask blend of lines 128-133, as one external-arithmetic step at the
pipeline level; its pixel semantics is performSwapBlend below. -/
def blendOp (result target_img_np : NImg) (target_face : Face) : PyM NImg :=
  callO Ev.blend (fun o => o.blend result target_img_np target_face)

/-- perform_face_swap (swap.py lines 108-139): loads the inswapper model on
every call, converts the target image again, swaps, blends. -/
def perform_face_swap (source_face : Option Face) (target_face : Face)
    (target_img : Option PImg) : PyM (Option NImg × Option String) :=
  tryE (
    bindE (log_message "Loading inswapper model...") fun _ =>
    bindE (callO Ev.loadSwapper (fun o => o.loadSwapper)) fun swapper =>
    bindE (log_message "Inswapper model loaded successfully") fun _ =>
    bindE (cvtOp target_img) fun target_img_np =>
    bindE (swapOp swapper target_face source_face target_img_np) fun result =>
    bindE (blendOp result target_img_np target_face) fun result2 =>
    bindE (log_message "Face swapping completed") fun _ =>
    ret (some result2, none))
  (fun e =>
    bindE (log_message ("Error during face swapping: " ++ e)) fun j =>
    ret (none, some j))

/-- enhancer.enhance(result, paste_back=True) on a possibly-None raster. -/
def enhanceOp (e : Enh) (r : Option NImg) : PyM NImg :=
  match r with
  | none => raiseE "TypeError: enhance on None"
  | some img => callO Ev.enhance (fun o => o.enhance e img)

/-- cv2.imwrite: records the event, writes the file into the world on
success. -/
def imwriteOp (p : String) (img : NImg) : PyM Unit := fun o w =>
  match o.imwrite p img with
  | .ok _ => (.ok (), { w with trace := w.trace ++ [Ev.imwrite], files := w.files ++ [p] })
  | .error e => (.error e, { w with trace := w.trace ++ [Ev.imwrite] })

/-- enhance_with_gfpgan (swap.py lines 141-160): builds a fresh GFPGANer on
every call, enhances, writes output/output.jpg. -/
def enhance_with_gfpgan (result : Option NImg) : PyM (Option String × Option String) :=
  tryE (
    bindE (log_message "Enhancing with GFPGAN...") fun _ =>
    bindE (callO Ev.initGfpgan (fun o => o.gfpganInit)) fun enhancer =>
    bindE (enhanceOp enhancer result) fun enhanced =>
    bindE (imwriteOp output_path enhanced) fun _ =>
    bindE (log_message ("Enhanced image saved to " ++ output_path)) fun _ =>
    ret (some output_path, none))
  (fun e =>
    bindE (log_message ("Error during GFPGAN enhancement: " ++ e)) fun j =>
    ret (none, some j))

/-- Character-list comparison: does the second list start with the first
one.  Used for the filesystem model of rmtree. -/
def startsWithChars : List Char → List Char → Bool
  | [], _ => true
  | _ :: _, [] => false
  | a :: as, b :: bs => a == b && startsWithChars as bs

/-- Whether a path lies under the output directory. -/
def underOutputDir (p : String) : Bool :=
  startsWithChars (output_dir ++ "/").data p.data

/-- shutil.rmtree(output_dir) (line 171): on success removes the directory
and every file under it. -/
def rmtreeOp : PyM Unit := fun o w =>
  match o.rmtree with
  | .ok _ =>
    (.ok (),
      { files := w.files.filter (fun p => ¬ underOutputDir p)
        dirs := w.dirs.erase output_dir
        logs := w.logs
        trace := w.trace ++ [Ev.rmtreeOut] })
  | .error e => (.error e, { w with trace := w.trace ++ [Ev.rmtreeOut] })

/-- os.makedirs(output_dir, exist_ok=True) (line 172). -/
def makedirsOp : PyM Unit := fun o w =>
  match o.makedirs with
  | .ok _ =>
    (.ok (),
      { files := w.files
        dirs := if output_dir ∈ w.dirs then w.dirs else w.dirs ++ [output_dir]
        logs := w.logs
        trace := w.trace ++ [Ev.mkdirsOut] })
  | .error e => (.error e, { w with trace := w.trace ++ [Ev.mkdirsOut] })

/-- The tail of the face_swap try block, from the validate_paths call
onward (swap.py lines 174-202): each stage result is checked and any error
terminates the pipeline with (None, joined log text). -/
def face_swap_post (source_img target_img : Option PImg) : PyM (Option String × String) :=
  bindE validate_paths fun vm =>
  bindE (log_message vm.2) fun _ =>
  if vm.1 then
    bindE initialize_face_analysis fun ar =>
    match ar with
    | (_, some e) =>
      bindE (log_message e) fun j => ret (none, j)
    | (appOpt, none) =>
      bindE (load_and_detect_faces appOpt source_img target_img) fun ldf =>
      match ldf with
      | (_, _, some e) =>
        bindE (log_message e) fun j => ret (none, j)
      | (sfOpt, tfOpt, none) =>
        bindE (select_source_face sfOpt) fun ssf =>
        match ssf with
        | (_, some e) =>
          bindE (log_message e) fun j => ret (none, j)
        | (sfaceOpt, none) =>
          bindE (pyIndex0 tfOpt) fun target_face =>
          bindE (log_message ("Target face attributes: " ++ toString target_face)) fun _ =>
          bindE (perform_face_swap sfaceOpt target_face target_img) fun pfs =>
          match pfs with
          | (_, some e) =>
            bindE (log_message e) fun j => ret (none, j)
          | (resOpt, none) =>
            bindE (enhance_with_gfpgan resOpt) fun eg =>
            match eg with
            | (_, some e) =>
              bindE (log_message e) fun j => ret (none, j)
            | (outOpt, none) =>
              bindE (log_message "Processing completed") fun _ =>
              bindE getWorld fun w =>
              ret (outOpt, "\n".intercalate w.logs)
  else
    bindE (log_message "Path validation failed") fun j => ret (none, j)

/-- The body of the face_swap try block (swap.py lines 169-202): opening
log line, output-directory reset, then the staged pipeline. -/
def face_swap_body (source_img target_img : Option PImg) : PyM (Option String × String) :=
  bindE (log_message "Starting face swap process...") fun _ =>
  bindE getWorld fun w =>
  bindE (if pyexists w output_dir then rmtreeOp else ret ()) fun _ =>
  bindE makedirsOp fun _ =>
  face_swap_post source_img target_img

/-- face_swap (swap.py lines 162-205): resets the global log list, runs the
pipeline body inside a try block whose except handler converts any
uncaught exception into (None, joined log text). -/
def face_swap (source_img target_img : Option PImg) : PyM (Option String × String) :=
  bindE resetLogs fun _ =>
  tryE (face_swap_body source_img target_img)
    (fun e =>
      bindE (log_message ("Unexpected error in face_swap: " ++ e)) fun j =>
      ret (none, j))

/-
  Pixel-level embedding of the blending step of perform_face_swap
  (swap.py lines 124-133):

    target_img_np = cv2.cvtColor(np.array(target_img), cv2.COLOR_RGB2BGR)
    result = target_img_np.copy()
    result = swapper.get(result, target_face, source_face, paste_back=True)
    x, y, w, h = target_face.bbox.astype(int)
    mask = np.zeros(result.shape[:2], dtype=np.float32)
    cv2.rectangle(mask, (x, y), (x + w, y + h), 1.0, -1)
    mask = cv2.GaussianBlur(mask, (9, 9), 0)
    mask = np.stack([mask]*3, axis=-1)
    result = (result * mask + target_img_np * (1 - mask)).astype(np.uint8)

  Rasters are uint8 BGR images, modelled as dimensions plus a pixel
  function into Nat; the float arithmetic of the mask is modelled exactly
  over the rationals.  The 9 x 9 Gaussian kernel computed by cv2 from
  sigma = 0 has transcendental entries, so the blur is parameterised by a
  one-dimensional kernel g together with the properties every such kernel
  has (validKernel9); cv2.GaussianBlur is separable convolution with the
  default BORDER_REFLECT_101 border. -/

/-- A uint8 raster image with three channels (BGR). -/
structure Raster where
  h : Nat
  w : Nat
  px : Nat → Nat → Fin 3 → Nat

/-- The four integer components of target_face.bbox.astype(int) in the
order the source unpacks them (line 128 reads them as x, y, w, h; the
insightface bbox layout is the corner format (x0, y0, x1, y1)). -/
structure BBoxI where
  c0 : Int
  c1 : Int
  c2 : Int
  c3 : Int
  deriving DecidableEq, Repr

/-- The rectangle filled by cv2.rectangle(mask, (x, y), (x + w, y + h),
1.0, -1): both corner pixels included, corners normalised. -/
def inRectCode (bb : BBoxI) (i j : Int) : Prop :=
  min bb.c0 (bb.c0 + bb.c2) ≤ j ∧ j ≤ max bb.c0 (bb.c0 + bb.c2) ∧
  min bb.c1 (bb.c1 + bb.c3) ≤ i ∧ i ≤ max bb.c1 (bb.c1 + bb.c3)

instance (bb : BBoxI) (i j : Int) : Decidable (inRectCode bb i j) := by
  unfold inRectCode; infer_instance

/-- The rectangle the claim describes: fills exactly the bounding-box
region from (x0, y0) to (x1, y1), reading the four bbox components as the
two corners.  This definition follows the words of the spec sentence, for
comparison with the code mask. -/
def inRectClaimed (bb : BBoxI) (i j : Int) : Prop :=
  bb.c0 ≤ j ∧ j ≤ bb.c2 ∧ bb.c1 ≤ i ∧ i ≤ bb.c3

instance (bb : BBoxI) (i j : Int) : Decidable (inRectClaimed bb i j) := by
  unfold inRectClaimed; infer_instance

/-- The single-channel float mask after np.zeros + cv2.rectangle
(lines 129-130): 1.0 inside the filled rectangle (clipped to the mask
extent h x w), 0.0 elsewhere. -/
def maskPre (h w : Nat) (bb : BBoxI) (i j : Nat) : ℚ :=
  if i < h ∧ j < w ∧ inRectCode bb (i : Int) (j : Int) then 1 else 0

/-- The mask the claim describes, filling exactly (x0, y0) to (x1, y1).
Modelled from the spec sentence for the refinement comparison. -/
def maskClaimed (h w : Nat) (bb : BBoxI) (i j : Nat) : ℚ :=
  if i < h ∧ j < w ∧ inRectClaimed bb (i : Int) (j : Int) then 1 else 0

/-- BORDER_REFLECT_101 index folding used by cv2.GaussianBlur at the image
border: for extent n at least 2 the index pattern has period 2(n-1) and
reflects without repeating the edge pixel; a single-pixel extent maps
every index to 0. -/
def reflect101 (n : Nat) (t : Int) : Nat :=
  if n ≤ 1 then 0
  else
    let p : Int := 2 * ((n : Int) - 1)
    let r : Int := t % p
    if r < (n : Int) then r.toNat else (p - r).toNat

/-- cv2.GaussianBlur(mask, (9, 9), 0) at pixel (i, j): separable
convolution with the 9-tap kernel g in both directions, sampling the mask
through BORDER_REFLECT_101. -/
def blurMask9 (g : Int → ℚ) (h w : Nat) (bb : BBoxI) (i j : Nat) : ℚ :=
  ∑ di in Finset.Icc (-4 : Int) 4, ∑ dj in Finset.Icc (-4 : Int) 4,
    g di * g dj * maskPre h w bb (reflect101 h ((i : Int) + di)) (reflect101 w ((j : Int) + dj))

/-- Properties of the 9-tap Gaussian kernel cv2.getGaussianKernel(9, 0)
computes: non-negative, normalised, symmetric, positive at the centre. -/
def validKernel9 (g : Int → ℚ) : Prop :=
  (∀ i ∈ Finset.Icc (-4 : Int) 4, 0 ≤ g i) ∧
  (∑ i in Finset.Icc (-4 : Int) 4, g i = 1) ∧
  (∀ i, g (-i) = g i) ∧
  0 < g 0

/-- The numpy float32-to-uint8 cast of line 133 for the non-negative
in-range values produced by the convex blend: truncation toward zero. -/
def u8cast (q : ℚ) : Nat := (⌊q⌋).toNat % 256

/-- The blend of lines 128-133: the mask is built on result.shape
(the swapped raster), blurred, broadcast to the three channels, and the
composite result*mask + target*(1-mask) is cast back to uint8. -/
def performSwapBlend (g : Int → ℚ) (swapped target : Raster) (bb : BBoxI) : Raster :=
  { h := swapped.h
    w := swapped.w
    px := fun i j c =>
      u8cast ((swapped.px i j c : ℚ) * blurMask9 g swapped.h swapped.w bb i j +
        (target.px i j c : ℚ) * (1 - blurMask9 g swapped.h swapped.w bb i j)) }

/-- A uniform 1 x 1 raster. -/
def unif1 (v : Nat) : Raster := { h := 1, w := 1, px := fun _ _ _ => v }

/-- The zero-area bounding box at the origin. -/
def bbZero : BBoxI := { c0 := 0, c1 := 0, c2 := 0, c3 := 0 }

/-- The bounding-box area in the corner reading of the spec data model:
(x1 - x0) * (y1 - y0). -/
def bboxArea (bb : BBoxI) : Int := (bb.c2 - bb.c0) * (bb.c3 - bb.c1)

/-- A concrete kernel satisfying validKernel9 (a degenerate member of the
class, used only to instantiate kernel-quantified statements). -/
def deltaK : Int → ℚ := fun i => if i = 0 then 1 else 0

/-- The statement of claim C6 as written: any call of the blending with a
zero-area target bounding box returns the original target image
unchanged. -/
def C6asStated : Prop :=
  ∀ g, validKernel9 g → ∀ swapped target : Raster, ∀ bb : BBoxI,
    swapped.h = target.h → swapped.w = target.w → bboxArea bb = 0 →
    performSwapBlend g swapped target bb = target

/-
  Concrete worlds and oracles used by the closed theorems below.
-/

/-- An oracle on which every external call succeeds. -/
def okO : Oracle :=
  { faInit := .ok 10
    cvtColor := fun p => .ok p
    detect := fun _ _ => .ok [7]
    loadSwapper := .ok 11
    swapGet := fun _ _ _ img => .ok img
    blend := fun r _ _ => .ok r
    gfpganInit := .ok 12
    enhance := fun _ img => .ok img
    imwrite := fun _ _ => .ok ()
    rmtree := .ok ()
    makedirs := .ok ()
    cudaAvailable := false }

/-- An oracle identical to okO except that the detector finds no faces in
any image. -/
def okNoFaceO : Oracle := { okO with detect := fun _ _ => .ok [] }

/-- A world holding every model file validate_paths requires, an empty
log, and an empty trace. -/
def readyW : World :=
  { files := [model_path, gfpgan_path] ++
      required_files.map (fun f => buffalo_l_path ++ "/" ++ f)
    dirs := [buffalo_l_path]
    logs := []
    trace := [] }

/-- A world with an empty filesystem. -/
def emptyW : World := { files := [], dirs := [], logs := [], trace := [] }

/-- The first of two consecutive face_swap requests against okO, starting
from readyW. -/
def firstRun : Except Exc (Option String × String) × World :=
  face_swap (some 0) (some 1) okO readyW

/-- The second consecutive request, starting from the world the first one
left behind. -/
def secondRun : Except Exc (Option String × String) × World :=
  face_swap (some 0) (some 1) okO firstRun.2

/-- The trace left by the two consecutive requests. -/
def twoRunTrace : List Ev := secondRun.2.trace

/-- The output-path component of a pipeline result. -/
def resultPath (r : Except Exc (Option String × String)) : Option String :=
  match r with
  | .ok a => a.1
  | .error _ => none

/-- Events that do not belong to the swap stage (perform_face_swap) or the
enhance stage (enhance_with_gfpgan).  A trace whose events are all benign
witnesses that neither stage was entered. -/
def benign : Ev → Bool
  | Ev.loadSwapper => false
  | Ev.swapGet => false
  | Ev.blend => false
  | Ev.initGfpgan => false
  | Ev.enhance => false
  | Ev.imwrite => false
  | _ => true

/-- The detector finds zero faces in the (converted) source image of the
request. -/
def detNoSrcFaces (o : Oracle) (source_img : Option PImg) : Prop :=
  ∀ a s sp, source_img = some sp → o.cvtColor sp = .ok s → o.detect a s = .ok []

/-- The detector finds zero faces in the (converted) target image of the
request. -/
def detNoTgtFaces (o : Oracle) (target_img : Option PImg) : Prop :=
  ∀ a t tp, target_img = some tp → o.cvtColor tp = .ok t → o.detect a t = .ok []

/-- The world after the output-directory reset of face_swap lines 170-172
when the directory existed: opening log line, rmtree, makedirs. -/
def dirResetWorld (w1 : World) : World :=
  { files := w1.files.filter (fun p => ¬ underOutputDir p)
    dirs := if output_dir ∈ w1.dirs.erase output_dir then w1.dirs.erase output_dir
      else w1.dirs.erase output_dir ++ [output_dir]
    logs := w1.logs ++ ["Starting face swap process..."]
    trace := w1.trace ++ [Ev.rmtreeOut] ++ [Ev.mkdirsOut] }

/-- The world after the output-directory reset when the directory did not
exist: opening log line, makedirs only. -/
def dirMakeWorld (w1 : World) : World :=
  { files := w1.files
    dirs := if output_dir ∈ w1.dirs then w1.dirs else w1.dirs ++ [output_dir]
    logs := w1.logs ++ ["Starting face swap process..."]
    trace := w1.trace ++ [Ev.mkdirsOut] }

/-
  Reasoning framework: TraceCond o m B P states that, for the fixed oracle
  o, every run of m only appends events satisfying B to the trace, and the
  run outcome (normal or exceptional) satisfies P.  The rules below follow
  the structure of the monadic combinators, so pipeline properties are
  proved by walking the definitions.
-/

def TraceCond (o : Oracle) {α : Type} (m : PyM α) (B : Ev → Bool)
    (P : Except Exc α → Prop) : Prop :=
  ∀ w, (∃ δ, (m o w).2.trace = w.trace ++ δ ∧ δ.all B = true) ∧ P (m o w).1

theorem tc_ret {o : Oracle} {α : Type} {a : α} {B : Ev → Bool}
    {P : Except Exc α → Prop} (h : P (.ok a)) : TraceCond o (ret a) B P := by
  intro w
  exact ⟨⟨[], by simp [ret], rfl⟩, h⟩

theorem tc_raise {o : Oracle} {α : Type} {e : Exc} {B : Ev → Bool}
    {P : Except Exc α → Prop} (h : P (.error e)) : TraceCond o (raiseE e) B P := by
  intro w
  exact ⟨⟨[], by simp [raiseE], rfl⟩, h⟩

theorem tc_bindE {o : Oracle} {α β : Type} {m : PyM α} {k : α → PyM β}
    {B : Ev → Bool} {Q : Except Exc α → Prop} {P : Except Exc β → Prop}
    (hm : TraceCond o m B Q)
    (hok : ∀ a, Q (.ok a) → TraceCond o (k a) B P)
    (herr : ∀ e, Q (.error e) → P (.error e)) :
    TraceCond o (bindE m k) B P := by
  intro w
  obtain ⟨⟨δ1, ht1, hb1⟩, hq⟩ := hm w
  unfold bindE
  rcases hmo : m o w with ⟨r, w1⟩
  rw [hmo] at ht1 hq
  cases r with
  | ok a =>
    obtain ⟨⟨δ2, ht2, hb2⟩, hp⟩ := hok a hq w1
    refine ⟨⟨δ1 ++ δ2, ?_, ?_⟩, hp⟩
    · rw [ht2, ht1, List.append_assoc]
    · rw [List.all_append, hb1, hb2]
      rfl
  | error e => exact ⟨⟨δ1, ht1, hb1⟩, herr e hq⟩

theorem tc_tryE {o : Oracle} {α : Type} {m : PyM α} {h : Exc → PyM α}
    {B : Ev → Bool} {Q : Except Exc α → Prop} {P : Except Exc α → Prop}
    (hm : TraceCond o m B Q)
    (hok : ∀ a, Q (.ok a) → P (.ok a))
    (hh : ∀ e, Q (.error e) → TraceCond o (h e) B P) :
    TraceCond o (tryE m h) B P := by
  intro w
  obtain ⟨⟨δ1, ht1, hb1⟩, hq⟩ := hm w
  unfold tryE
  rcases hmo : m o w with ⟨r, w1⟩
  rw [hmo] at ht1 hq
  cases r with
  | ok a => exact ⟨⟨δ1, ht1, hb1⟩, hok a hq⟩
  | error e =>
    obtain ⟨⟨δ2, ht2, hb2⟩, hp⟩ := hh e hq w1
    refine ⟨⟨δ1 ++ δ2, ?_, ?_⟩, hp⟩
    · rw [ht2, ht1, List.append_assoc]
    · rw [List.all_append, hb1, hb2]
      rfl

theorem tc_callO {o : Oracle} {α : Type} {ev : Ev} {f : Oracle → Except Exc α}
    {B : Ev → Bool} {P : Except Exc α → Prop}
    (hb : B ev = true) (hp : P (f o)) : TraceCond o (callO ev f) B P := by
  intro w
  exact ⟨⟨[ev], by simp [callO], by simp [hb]⟩, hp⟩

theorem tc_record {o : Oracle} {ev : Ev} {B : Ev → Bool}
    {P : Except Exc Unit → Prop}
    (hb : B ev = true) (hp : P (.ok ())) : TraceCond o (record ev) B P := by
  intro w
  exact ⟨⟨[ev], by simp [record], by simp [hb]⟩, hp⟩

theorem tc_log {o : Oracle} {msg : String} {B : Ev → Bool}
    {P : Except Exc String → Prop}
    (hp : ∀ s, P (.ok s)) : TraceCond o (log_message msg) B P := by
  intro w
  exact ⟨⟨[], by simp [log_message], rfl⟩, hp _⟩

theorem tc_cuda_log {o : Oracle} {B : Ev → Bool} {P : Except Exc String → Prop}
    (hp : ∀ s, P (.ok s)) : TraceCond o cuda_log B P := by
  intro w
  exact ⟨⟨[], by simp [cuda_log, log_message], rfl⟩, hp _⟩

theorem tc_getWorld {o : Oracle} {B : Ev → Bool} {P : Except Exc World → Prop}
    (hp : ∀ w, P (.ok w)) : TraceCond o getWorld B P := by
  intro w
  exact ⟨⟨[], by simp [getWorld], rfl⟩, hp _⟩

theorem tc_resetLogs {o : Oracle} {B : Ev → Bool} {P : Except Exc Unit → Prop}
    (hp : P (.ok ())) : TraceCond o resetLogs B P := by
  intro w
  exact ⟨⟨[], by simp [resetLogs], rfl⟩, hp⟩

theorem tc_rmtree {o : Oracle} {B : Ev → Bool} {P : Except Exc Unit → Prop}
    (hb : B Ev.rmtreeOut = true) (hp : P o.rmtree) : TraceCond o rmtreeOp B P := by
  intro w
  unfold rmtreeOp
  rcases hr : o.rmtree with e | a
  · rw [hr] at hp
    exact ⟨⟨[Ev.rmtreeOut], by simp, by simp [hb]⟩, hp⟩
  · rw [hr] at hp
    exact ⟨⟨[Ev.rmtreeOut], by simp, by simp [hb]⟩, hp⟩

theorem tc_makedirs {o : Oracle} {B : Ev → Bool} {P : Except Exc Unit → Prop}
    (hb : B Ev.mkdirsOut = true) (hp : P o.makedirs) : TraceCond o makedirsOp B P := by
  intro w
  unfold makedirsOp
  rcases hr : o.makedirs with e | a
  · rw [hr] at hp
    exact ⟨⟨[Ev.mkdirsOut], by simp, by simp [hb]⟩, hp⟩
  · rw [hr] at hp
    exact ⟨⟨[Ev.mkdirsOut], by simp, by simp [hb]⟩, hp⟩

theorem tc_imwrite {o : Oracle} {p : String} {img : NImg} {B : Ev → Bool}
    {P : Except Exc Unit → Prop}
    (hb : B Ev.imwrite = true) (hp : P (o.imwrite p img |>.map (fun _ => ()))) :
    TraceCond o (imwriteOp p img) B P := by
  intro w
  unfold imwriteOp
  rcases hr : o.imwrite p img with e | a
  · rw [hr] at hp
    exact ⟨⟨[Ev.imwrite], by simp, by simp [hb]⟩, hp⟩
  · rw [hr] at hp
    exact ⟨⟨[Ev.imwrite], by simp, by simp [hb]⟩, hp⟩

theorem tc_ite {o : Oracle} {α : Type} {c : Prop} [Decidable c]
    {m1 m2 : PyM α} {B : Ev → Bool} {P : Except Exc α → Prop}
    (h1 : c → TraceCond o m1 B P) (h2 : ¬ c → TraceCond o m2 B P) :
    TraceCond o (if c then m1 else m2) B P := by
  by_cases hc : c
  · simpa [hc] using h1 hc
  · simpa [hc] using h2 hc

theorem tc_weaken {o : Oracle} {α : Type} {m : PyM α} {B : Ev → Bool}
    {P Q : Except Exc α → Prop}
    (hm : TraceCond o m B P) (h : ∀ r, P r → Q r) : TraceCond o m B Q := by
  intro w
  obtain ⟨hδ, hp⟩ := hm w
  exact ⟨hδ, h _ hp⟩

/-- A result that is known to be normal (the computation cannot raise). -/
def okResult {α : Type} (r : Except Exc α) : Prop := ∃ a, r = .ok a

theorem okResult_error_elim {α : Type} {e : Exc} {C : Prop}
    (h : @okResult α (.error e)) : C := by
  obtain ⟨a, ha⟩ := h
  cases ha

theorem tc_bindE_ok {o : Oracle} {α β : Type} {m : PyM α} {k : α → PyM β}
    {B : Ev → Bool} {P : Except Exc β → Prop}
    (hm : TraceCond o m B okResult)
    (hok : ∀ a, TraceCond o (k a) B P) : TraceCond o (bindE m k) B P :=
  tc_bindE hm (fun a _ => hok a) (fun _ h => okResult_error_elim h)

theorem tc_bindE_any {o : Oracle} {α β : Type} {m : PyM α} {k : α → PyM β}
    {B : Ev → Bool} {P : Except Exc β → Prop}
    (hm : TraceCond o m B (fun _ => True))
    (hok : ∀ a, TraceCond o (k a) B P)
    (herr : ∀ e, P (.error e)) : TraceCond o (bindE m k) B P :=
  tc_bindE hm (fun a _ => hok a) (fun e _ => herr e)

theorem tc_bindE_call {o : Oracle} {α β : Type} {ev : Ev}
    {f : Oracle → Except Exc α} {k : α → PyM β}
    {B : Ev → Bool} {P : Except Exc β → Prop}
    (hb : B ev = true)
    (hok : ∀ a, f o = .ok a → TraceCond o (k a) B P)
    (herr : ∀ e, f o = .error e → P (.error e)) :
    TraceCond o (bindE (callO ev f) k) B P :=
  tc_bindE (tc_callO hb rfl : TraceCond o (callO ev f) B (fun r => f o = r))
    (fun a h => hok a h) (fun e h => herr e h)

theorem tc_log_ok {o : Oracle} {msg : String} {B : Ev → Bool} :
    TraceCond o (log_message msg) B okResult :=
  tc_log (fun s => ⟨s, rfl⟩)

theorem tc_cuda_log_ok {o : Oracle} {B : Ev → Bool} :
    TraceCond o cuda_log B okResult :=
  tc_cuda_log (fun s => ⟨s, rfl⟩)

theorem tc_getWorld_ok {o : Oracle} {B : Ev → Bool} :
    TraceCond o getWorld B okResult :=
  tc_getWorld (fun w => ⟨w, rfl⟩)

theorem tc_record_ok {o : Oracle} {ev : Ev} {B : Ev → Bool}
    (hb : B ev = true) : TraceCond o (record ev) B okResult :=
  tc_record hb ⟨(), rfl⟩

/-- validate_paths never raises, records only its validate event, and
returns the pure check result. -/
theorem tc_validate {o : Oracle} {B : Ev → Bool}
    {P : Except Exc (Bool × String) → Prop}
    (hb : B Ev.validate = true) (hp : ∀ v, P (.ok v)) :
    TraceCond o validate_paths B P := by
  unfold validate_paths
  refine tc_bindE_ok tc_log_ok (fun _ => ?_)
  refine tc_bindE_ok (tc_record_ok hb) (fun _ => ?_)
  refine tc_bindE_ok tc_getWorld_ok (fun w => ?_)
  exact tc_ret (hp _)

/-- initialize_face_analysis never raises (its whole body is inside a try
block with a non-raising handler) and records at most the initFA event. -/
theorem tc_init_fa {o : Oracle} {B : Ev → Bool}
    {P : Except Exc (Option App × Option String) → Prop}
    (hb : B Ev.initFA = true) (hp : ∀ r, P (.ok r)) :
    TraceCond o initialize_face_analysis B P := by
  unfold initialize_face_analysis
  refine tc_tryE (?_ : TraceCond o _ B (fun _ => True)) (fun a _ => hp a) (fun e _ => ?_)
  · refine tc_bindE_any (tc_log (fun _ => trivial)) (fun _ => ?_) (fun _ => trivial)
    refine tc_bindE_any (tc_callO hb trivial) (fun app => ?_) (fun _ => trivial)
    refine tc_bindE_any (tc_cuda_log (fun _ => trivial)) (fun _ => ?_) (fun _ => trivial)
    refine tc_bindE_any (tc_log (fun _ => trivial)) (fun _ => ?_) (fun _ => trivial)
    exact tc_ret trivial
  · exact tc_bindE_ok tc_log_ok (fun j => tc_ret (hp _))

/-- select_source_face never raises and records no event. -/
theorem tc_select {o : Oracle} {l : Option (List Face)} {B : Ev → Bool}
    {P : Except Exc (Option Face × Option String) → Prop}
    (hp : ∀ r, P (.ok r)) :
    TraceCond o (select_source_face l) B P := by
  unfold select_source_face
  refine tc_tryE (?_ : TraceCond o _ B (fun _ => True)) (fun a _ => hp a) (fun e _ => ?_)
  · refine tc_bindE_any (tc_log (fun _ => trivial)) (fun _ => ?_) (fun _ => trivial)
    refine tc_bindE_any ?_ (fun _ => ?_) (fun _ => trivial)
    · unfold pyIndex0
      match l with
      | none => exact tc_raise trivial
      | some [] => exact tc_raise trivial
      | some (a :: _) => exact tc_ret trivial
    · refine tc_bindE_any (tc_log (fun _ => trivial)) (fun _ => ?_) (fun _ => trivial)
      exact tc_ret trivial
  · exact tc_bindE_ok tc_log_ok (fun j => tc_ret (hp _))

/-- load_and_detect_faces never raises and records at most conversion and
detection events. -/
theorem tc_load {o : Oracle} {app : Option App} {si ti : Option PImg}
    {B : Ev → Bool}
    {P : Except Exc (Option (List Face) × Option (List Face) × Option String) → Prop}
    (hbc : B Ev.cvt = true) (hbd : B Ev.detect = true) (hp : ∀ r, P (.ok r)) :
    TraceCond o (load_and_detect_faces app si ti) B P := by
  unfold load_and_detect_faces
  refine tc_tryE (?_ : TraceCond o _ B (fun _ => True)) (fun a _ => hp a) (fun e _ => ?_)
  · refine tc_bindE_any (tc_log (fun _ => trivial)) (fun _ => ?_) (fun _ => trivial)
    refine tc_ite (fun _ => tc_ret trivial) (fun _ => ?_)
    refine tc_bindE_any ?_ (fun s => ?_) (fun _ => trivial)
    · unfold cvtOp
      match si with
      | none => exact tc_raise trivial
      | some p => exact tc_callO hbc trivial
    refine tc_bindE_any ?_ (fun t => ?_) (fun _ => trivial)
    · unfold cvtOp
      match ti with
      | none => exact tc_raise trivial
      | some p => exact tc_callO hbc trivial
    refine tc_bindE_any ?_ (fun sf => ?_) (fun _ => trivial)
    · unfold detectOp
      match app with
      | none => exact tc_raise trivial
      | some a => exact tc_callO hbd trivial
    refine tc_bindE_any ?_ (fun tf => ?_) (fun _ => trivial)
    · unfold detectOp
      match app with
      | none => exact tc_raise trivial
      | some a => exact tc_callO hbd trivial
    refine tc_bindE_any (tc_log (fun _ => trivial)) (fun _ => ?_) (fun _ => trivial)
    refine tc_bindE_any (tc_log (fun _ => trivial)) (fun _ => ?_) (fun _ => trivial)
    refine tc_ite (fun _ => tc_ret trivial) (fun _ => tc_ret trivial)
  · exact tc_bindE_ok tc_log_ok (fun j => tc_ret (hp _))

/-- perform_face_swap never raises; it records the swap-stage events. -/
theorem tc_perform {o : Oracle} {sf : Option Face} {tf : Face}
    {ti : Option PImg} {B : Ev → Bool}
    {P : Except Exc (Option NImg × Option String) → Prop}
    (hbl : B Ev.loadSwapper = true) (hbc : B Ev.cvt = true)
    (hbs : B Ev.swapGet = true) (hbb : B Ev.blend = true)
    (hp : ∀ r, P (.ok r)) :
    TraceCond o (perform_face_swap sf tf ti) B P := by
  unfold perform_face_swap
  refine tc_tryE (?_ : TraceCond o _ B (fun _ => True)) (fun a _ => hp a) (fun e _ => ?_)
  · refine tc_bindE_any (tc_log (fun _ => trivial)) (fun _ => ?_) (fun _ => trivial)
    refine tc_bindE_any (tc_callO hbl trivial) (fun sw => ?_) (fun _ => trivial)
    refine tc_bindE_any (tc_log (fun _ => trivial)) (fun _ => ?_) (fun _ => trivial)
    refine tc_bindE_any ?_ (fun timg => ?_) (fun _ => trivial)
    · unfold cvtOp
      match ti with
      | none => exact tc_raise trivial
      | some p => exact tc_callO hbc trivial
    refine tc_bindE_any ?_ (fun res => ?_) (fun _ => trivial)
    · unfold swapOp
      match sf with
      | none => exact tc_raise trivial
      | some x => exact tc_callO hbs trivial
    refine tc_bindE_any (tc_callO hbb trivial) (fun res2 => ?_) (fun _ => trivial)
    refine tc_bindE_any (tc_log (fun _ => trivial)) (fun _ => ?_) (fun _ => trivial)
    exact tc_ret trivial
  · exact tc_bindE_ok tc_log_ok (fun j => tc_ret (hp _))

/-- enhance_with_gfpgan never raises; on success its path result is the
fixed output path, on an internal exception it is None with a detail
string. -/
theorem tc_enhance {o : Oracle} {r : Option NImg} {B : Ev → Bool}
    {P : Except Exc (Option String × Option String) → Prop}
    (hbg : B Ev.initGfpgan = true) (hbe : B Ev.enhance = true)
    (hbw : B Ev.imwrite = true)
    (hp1 : P (.ok (some output_path, none)))
    (hp2 : ∀ j, P (.ok (none, some j))) :
    TraceCond o (enhance_with_gfpgan r) B P := by
  unfold enhance_with_gfpgan
  refine tc_tryE
    (?_ : TraceCond o _ B (fun res => ∀ a, res = .ok a → a = (some output_path, none)))
    (fun a ha => ?_) (fun e _ => ?_)
  · refine tc_bindE_any (tc_log (fun _ => trivial))
      (fun _ => ?_) (fun _ a h => nomatch h)
    refine tc_bindE_any (tc_callO hbg trivial) (fun enh => ?_) (fun _ a h => nomatch h)
    refine tc_bindE_any ?_ (fun enhanced => ?_) (fun _ a h => nomatch h)
    · unfold enhanceOp
      match r with
      | none => exact tc_raise trivial
      | some img => exact tc_callO hbe trivial
    refine tc_bindE_any (tc_imwrite hbw trivial) (fun _ => ?_) (fun _ a h => nomatch h)
    refine tc_bindE_any (tc_log (fun _ => trivial)) (fun _ => ?_) (fun _ a h => nomatch h)
    exact tc_ret (fun a h => (Except.ok.inj h).symm)
  · rw [ha a rfl]
    exact hp1
  · exact tc_bindE_ok tc_log_ok (fun j => tc_ret (hp2 _))


theorem tc_bindE_raise {o : Oracle} {α β : Type} {e : Exc} {k : α → PyM β}
    {B : Ev → Bool} {P : Except Exc β → Prop}
    (herr : P (.error e)) : TraceCond o (bindE (raiseE e) k) B P := by
  intro w
  exact ⟨⟨[], by simp [bindE, raiseE], rfl⟩, herr⟩

theorem tc_pyIndex0_any {o : Oracle} {α : Type} {l : Option (List α)}
    {B : Ev → Bool} : TraceCond o (pyIndex0 l) B (fun _ => True) := by
  unfold pyIndex0
  match l with
  | none => exact tc_raise trivial
  | some [] => exact tc_raise trivial
  | some (a :: _) => exact tc_ret trivial

/-- Under a zero-face detection hypothesis for the source or the target
image, load_and_detect_faces always reports an error in its third
component, and records only benign events. -/
theorem tc_load_H {o : Oracle} {app : Option App} {si ti : Option PImg}
    (H : detNoSrcFaces o si ∨ detNoTgtFaces o ti) :
    TraceCond o (load_and_detect_faces app si ti) benign
      (fun r => ∀ a, r = .ok a → a.2.2 ≠ none) := by
  unfold load_and_detect_faces
  refine tc_tryE
    (?_ : TraceCond o _ benign (fun r => ∀ a, r = .ok a → a.2.2 ≠ none))
    (fun a ha => ha) (fun e _ => ?_)
  · refine tc_bindE_any (tc_log (fun _ => trivial)) (fun _ => ?_) (fun _ a h => nomatch h)
    refine tc_ite (fun _ => tc_ret ?_) (fun hne => ?_)
    · intro a h
      injection h with h2
      subst h2
      simp
    · rcases si with _ | sp
      · exact tc_bindE_raise (fun a h => nomatch h)
      · simp only [cvtOp]
        refine tc_bindE_call rfl (fun simg hs => ?_) (fun e _ a h => nomatch h)
        rcases ti with _ | tp
        · exact tc_bindE_raise (fun a h => nomatch h)
        · simp only [cvtOp]
          refine tc_bindE_call rfl (fun timg ht => ?_) (fun e _ a h => nomatch h)
          rcases app with _ | aapp
          · exact tc_bindE_raise (fun a h => nomatch h)
          · simp only [detectOp]
            refine tc_bindE_call rfl (fun sfaces hds => ?_) (fun e _ a h => nomatch h)
            refine tc_bindE_call rfl (fun tfaces hdt => ?_) (fun e _ a h => nomatch h)
            refine tc_bindE_any (tc_log (fun _ => trivial)) (fun _ => ?_) (fun _ a h => nomatch h)
            refine tc_bindE_any (tc_log (fun _ => trivial)) (fun _ => ?_) (fun _ a h => nomatch h)
            refine tc_ite (fun _ => tc_ret ?_) (fun hlen => ?_)
            · intro a h
              injection h with h2
              subst h2
              simp
            · exfalso
              apply hlen
              cases H with
              | inl HS =>
                have hz : o.detect aapp simg = .ok [] := HS aapp simg sp rfl hs
                have : sfaces = [] := by
                  have := hz.symm.trans hds
                  exact (Except.ok.inj this).symm
                exact Or.inl (by simp [this])
              | inr HT =>
                have hz : o.detect aapp timg = .ok [] := HT aapp timg tp rfl ht
                have : tfaces = [] := by
                  have := hz.symm.trans hdt
                  exact (Except.ok.inj this).symm
                exact Or.inr (by simp [this])
  · exact tc_bindE_ok tc_log_ok (fun j => tc_ret (fun a h => by
      injection h with h2
      subst h2
      simp))

/-- Every normal outcome of the staged pipeline tail is either an error
result (None plus log text) or the fixed output path. -/
theorem tc_post_shape {o : Oracle} {si ti : Option PImg} :
    TraceCond o (face_swap_post si ti) (fun _ => true)
      (fun r => ∀ a, r = .ok a → (a.1 = none ∨ a.1 = some output_path)) := by
  unfold face_swap_post
  refine tc_bindE_ok (tc_validate rfl (fun v => ⟨v, rfl⟩)) (fun vm => ?_)
  refine tc_bindE_ok tc_log_ok (fun _ => ?_)
  refine tc_ite (fun _ => ?_) (fun _ => ?_)
  · refine tc_bindE_ok (tc_init_fa rfl (fun r => ⟨r, rfl⟩)) (fun ar => ?_)
    rcases ar with ⟨appOpt, errOpt⟩
    cases errOpt with
    | some e =>
      exact tc_bindE_ok tc_log_ok (fun j => tc_ret (fun a h => by
        injection h with h2
        subst h2
        exact Or.inl rfl))
    | none =>
      refine tc_bindE_ok (tc_load rfl rfl (fun r => ⟨r, rfl⟩)) (fun ldf => ?_)
      rcases ldf with ⟨sfOpt, tfOpt, errOpt2⟩
      cases errOpt2 with
      | some e =>
        exact tc_bindE_ok tc_log_ok (fun j => tc_ret (fun a h => by
          injection h with h2
          subst h2
          exact Or.inl rfl))
      | none =>
        refine tc_bindE_ok (tc_select (fun r => ⟨r, rfl⟩)) (fun ssf => ?_)
        rcases ssf with ⟨sfaceOpt, errOpt3⟩
        cases errOpt3 with
        | some e =>
          exact tc_bindE_ok tc_log_ok (fun j => tc_ret (fun a h => by
            injection h with h2
            subst h2
            exact Or.inl rfl))
        | none =>
          refine tc_bindE_any tc_pyIndex0_any (fun tf => ?_) (fun _ a h => nomatch h)
          refine tc_bindE_any (tc_log (fun _ => trivial)) (fun _ => ?_) (fun _ a h => nomatch h)
          refine tc_bindE_ok (tc_perform rfl rfl rfl rfl (fun r => ⟨r, rfl⟩)) (fun pfs => ?_)
          rcases pfs with ⟨resOpt, errOpt4⟩
          cases errOpt4 with
          | some e =>
            exact tc_bindE_ok tc_log_ok (fun j => tc_ret (fun a h => by
              injection h with h2
              subst h2
              exact Or.inl rfl))
          | none =>
            refine tc_bindE
              (tc_enhance rfl rfl rfl ?_ ?_ :
                TraceCond o (enhance_with_gfpgan resOpt) (fun _ => true)
                  (fun r => ∀ a, r = .ok a →
                    (a = (some output_path, none) ∨ ∃ j, a = (none, some j))))
              (fun eg hq => ?_) (fun e _ a h => nomatch h)
            · intro a h
              injection h with h2
              subst h2
              exact Or.inl rfl
            · intro j a h
              injection h with h2
              subst h2
              exact Or.inr ⟨j, rfl⟩
            · rcases eg with ⟨outOpt, errOpt5⟩
              cases errOpt5 with
              | some e =>
                exact tc_bindE_ok tc_log_ok (fun j => tc_ret (fun a h => by
                  injection h with h2
                  subst h2
                  exact Or.inl rfl))
              | none =>
                have hout : outOpt = some output_path := by
                  rcases hq (outOpt, none) rfl with h1 | ⟨j, h2⟩
                  · exact congrArg Prod.fst h1
                  · exact absurd (congrArg Prod.snd h2) (by simp)
                refine tc_bindE_any (tc_log (fun _ => trivial)) (fun _ => ?_) (fun _ a h => nomatch h)
                refine tc_bindE_ok tc_getWorld_ok (fun wcur => ?_)
                exact tc_ret (fun a h => by
                  injection h with h2
                  subst h2
                  exact Or.inr hout)
  · exact tc_bindE_ok tc_log_ok (fun j => tc_ret (fun a h => by
      injection h with h2
      subst h2
      exact Or.inl rfl))


/-- Under a zero-face detection hypothesis, the staged pipeline tail stops
at the detection guard: it records only benign events (so the swap and
enhance stages never run), and every normal outcome carries None in place
of an output path. -/
theorem tc_post_H {o : Oracle} {si ti : Option PImg}
    (H : detNoSrcFaces o si ∨ detNoTgtFaces o ti) :
    TraceCond o (face_swap_post si ti) benign
      (fun r => ∀ a, r = .ok a → a.1 = none) := by
  unfold face_swap_post
  refine tc_bindE_ok (tc_validate rfl (fun v => ⟨v, rfl⟩)) (fun vm => ?_)
  refine tc_bindE_ok tc_log_ok (fun _ => ?_)
  refine tc_ite (fun _ => ?_) (fun _ => ?_)
  · refine tc_bindE_ok (tc_init_fa rfl (fun r => ⟨r, rfl⟩)) (fun ar => ?_)
    rcases ar with ⟨appOpt, errOpt⟩
    cases errOpt with
    | some e =>
      exact tc_bindE_ok tc_log_ok (fun j => tc_ret (fun a h => by
        injection h with h2
        subst h2
        rfl))
    | none =>
      refine tc_bindE (tc_load_H H) (fun ldf hq => ?_) (fun e _ a h => nomatch h)
      rcases ldf with ⟨sfOpt, tfOpt, errOpt2⟩
      cases errOpt2 with
      | some e =>
        exact tc_bindE_ok tc_log_ok (fun j => tc_ret (fun a h => by
          injection h with h2
          subst h2
          rfl))
      | none => exact absurd rfl (hq (sfOpt, tfOpt, none) rfl)
  · exact tc_bindE_ok tc_log_ok (fun j => tc_ret (fun a h => by
      injection h with h2
      subst h2
      rfl))

/-- The body of the face_swap try block, shape form. -/
theorem tc_body_shape {o : Oracle} {si ti : Option PImg} :
    TraceCond o (face_swap_body si ti) (fun _ => true)
      (fun r => ∀ a, r = .ok a → (a.1 = none ∨ a.1 = some output_path)) := by
  unfold face_swap_body
  refine tc_bindE_ok tc_log_ok (fun _ => ?_)
  refine tc_bindE_ok tc_getWorld_ok (fun w0 => ?_)
  refine tc_bindE_any (tc_ite (fun _ => tc_rmtree rfl trivial) (fun _ => tc_ret trivial))
    (fun _ => ?_) (fun _ a h => nomatch h)
  refine tc_bindE_any (tc_makedirs rfl trivial) (fun _ => ?_) (fun _ a h => nomatch h)
  exact tc_post_shape

/-- The body of the face_swap try block, zero-face form. -/
theorem tc_body_H {o : Oracle} {si ti : Option PImg}
    (H : detNoSrcFaces o si ∨ detNoTgtFaces o ti) :
    TraceCond o (face_swap_body si ti) benign
      (fun r => ∀ a, r = .ok a → a.1 = none) := by
  unfold face_swap_body
  refine tc_bindE_ok tc_log_ok (fun _ => ?_)
  refine tc_bindE_ok tc_getWorld_ok (fun w0 => ?_)
  refine tc_bindE_any (tc_ite (fun _ => tc_rmtree rfl trivial) (fun _ => tc_ret trivial))
    (fun _ => ?_) (fun _ a h => nomatch h)
  refine tc_bindE_any (tc_makedirs rfl trivial) (fun _ => ?_) (fun _ a h => nomatch h)
  exact tc_post_H H

/-- face_swap never raises, and its result is None or the fixed output
path, together with the joined log text. -/
theorem tc_face_swap_shape {o : Oracle} {si ti : Option PImg} :
    TraceCond o (face_swap si ti) (fun _ => true)
      (fun r => ∃ a, r = .ok a ∧ (a.1 = none ∨ a.1 = some output_path)) := by
  unfold face_swap
  refine tc_bindE_ok (tc_resetLogs ⟨(), rfl⟩) (fun _ => ?_)
  refine tc_tryE tc_body_shape (fun a ha => ⟨a, rfl, ha a rfl⟩) (fun e _ => ?_)
  exact tc_bindE_ok tc_log_ok (fun j => tc_ret ⟨(none, j), rfl, Or.inl rfl⟩)

/-- Under a zero-face detection hypothesis, face_swap records only benign
events and its result is always an error result. -/
theorem tc_face_swap_H {o : Oracle} {si ti : Option PImg}
    (H : detNoSrcFaces o si ∨ detNoTgtFaces o ti) :
    TraceCond o (face_swap si ti) benign
      (fun r => ∃ a, r = .ok a ∧ a.1 = none) := by
  unfold face_swap
  refine tc_bindE_ok (tc_resetLogs ⟨(), rfl⟩) (fun _ => ?_)
  refine tc_tryE (tc_body_H H) (fun a ha => ⟨a, rfl, ha a rfl⟩) (fun e _ => ?_)
  exact tc_bindE_ok tc_log_ok (fun j => tc_ret ⟨(none, j), rfl, rfl⟩)


/-- The degenerate kernel deltaK is a member of the validKernel9 class. -/
theorem validKernel9_deltaK : validKernel9 deltaK := by
  refine ⟨?_, ?_, ?_, ?_⟩
  · intro i _
    unfold deltaK
    split <;> norm_num
  · unfold deltaK
    rw [Finset.sum_ite_eq' (Finset.Icc (-4 : Int) 4) 0 (fun _ => (1 : ℚ))]
    norm_num
  · intro i
    unfold deltaK
    simp [neg_eq_zero]
  · unfold deltaK
    norm_num

/-- On a 1 x 1 image with the zero-area box at the origin, cv2.rectangle
still fills the single pixel, so the blurred mask is identically 1 for any
normalised kernel. -/
theorem blurMask9_one (g : Int → ℚ) (hg : validKernel9 g) (i j : Nat) :
    blurMask9 g 1 1 bbZero i j = 1 := by
  unfold blurMask9
  have hm : ∀ di dj : Int,
      maskPre 1 1 bbZero (reflect101 1 ((i : Int) + di)) (reflect101 1 ((j : Int) + dj)) = 1 := by
    intro di dj
    have h1 : reflect101 1 ((i : Int) + di) = 0 := by unfold reflect101; simp
    have h2 : reflect101 1 ((j : Int) + dj) = 0 := by unfold reflect101; simp
    rw [h1, h2]
    unfold maskPre
    rw [if_pos]
    refine ⟨Nat.one_pos, Nat.one_pos, ?_⟩
    unfold inRectCode bbZero
    norm_num
  simp only [hm, mul_one]
  rw [← Finset.sum_mul_sum]
  rw [hg.2.1]
  norm_num

/-- The blend of a uniform 1 x 1 swapped image over a uniform 1 x 1 target
with the zero-area box at the origin equals the swapped image. -/
theorem blend_unif1 (g : Int → ℚ) (hg : validKernel9 g) (s t : Nat) (hs : s < 256) :
    performSwapBlend g (unif1 s) (unif1 t) bbZero = unif1 s := by
  unfold performSwapBlend unif1
  simp only [Raster.mk.injEq]
  refine ⟨trivial, trivial, ?_⟩
  funext i j c
  rw [blurMask9_one g hg i j]
  have hval : ((s : ℚ)) * 1 + ((t : ℚ)) * (1 - 1) = ((s : ℚ)) := by ring
  rw [hval]
  unfold u8cast
  rw [Int.floor_natCast, Int.toNat_natCast]
  exact Nat.mod_eq_of_lt hs

theorem tryE_post_trace (o : Oracle) (si ti : Option PImg) (w4 : World) :
    ∃ δ, (tryE (face_swap_post si ti)
      (fun e => bindE (log_message ("Unexpected error in face_swap: " ++ e)) fun j =>
        ret (none, j)) o w4).2.trace = w4.trace ++ δ := by
  obtain ⟨⟨δ, ht, hb⟩, hp⟩ :=
    (tc_tryE (@tc_post_shape o si ti) (fun a _ => trivial)
      (fun e _ => tc_bindE_ok tc_log_ok (fun j => tc_ret trivial)) :
        TraceCond o _ (fun _ => true) (fun _ => True)) w4
  exact ⟨δ, ht⟩

theorem body_run_eq_pos (o : Oracle) (si ti : Option PImg) (w1 : World)
    (hrm : o.rmtree = .ok ()) (hmk : o.makedirs = .ok ())
    (hex : pyexists w1 output_dir) :
    face_swap_body si ti o w1 = face_swap_post si ti o (dirResetWorld w1) := by
  simp only [face_swap_body, bindE, log_message, getWorld, rmtreeOp, makedirsOp,
    hrm, hmk, pyexists, dirResetWorld]
  simp only [pyexists] at hex
  simp [hex, rmtreeOp, makedirsOp, hrm, hmk]

theorem body_run_eq_neg (o : Oracle) (si ti : Option PImg) (w1 : World)
    (hmk : o.makedirs = .ok ())
    (hex : ¬ pyexists w1 output_dir) :
    face_swap_body si ti o w1 = face_swap_post si ti o (dirMakeWorld w1) := by
  simp only [face_swap_body, bindE, log_message, getWorld, rmtreeOp, makedirsOp,
    hmk, pyexists, dirMakeWorld, ret]
  simp only [pyexists] at hex
  simp [hex, ret, makedirsOp, hmk]

/-- C1: for every request in which the face-detection stage finds zero
faces in the source image or in the target image, the pipeline (face_swap)
terminates with an error result (None output plus log text), and neither
the swap stage (perform_face_swap) nor the enhance stage
(enhance_with_gfpgan) executes: the instrumentation trace contains only
benign events. -/
theorem C1_zero_faces_aborts (o : Oracle) (si ti : Option PImg) (w : World)
    (H : detNoSrcFaces o si ∨ detNoTgtFaces o ti) (hw : w.trace = []) :
    (∃ a, (face_swap si ti o w).1 = .ok a ∧ a.1 = none) ∧
    (face_swap si ti o w).2.trace.all benign = true := by
  obtain ⟨⟨δ, ht, hb⟩, hp⟩ := tc_face_swap_H H w
  refine ⟨hp, ?_⟩
  rw [ht, hw]
  simpa using hb

/-- Witness for C1 at a concrete no-face oracle and a ready world. -/
theorem C1_zero_faces_aborts_witness :
    ((detNoSrcFaces okNoFaceO (some 0) ∨ detNoTgtFaces okNoFaceO (some 1)) ∧
      readyW.trace = []) ∧
    ((∃ a, (face_swap (some 0) (some 1) okNoFaceO readyW).1 = .ok a ∧ a.1 = none) ∧
      (face_swap (some 0) (some 1) okNoFaceO readyW).2.trace.all benign = true) :=
  ⟨⟨Or.inl (fun _ _ _ _ _ => rfl), rfl⟩,
    C1_zero_faces_aborts okNoFaceO (some 0) (some 1) readyW
      (Or.inl (fun _ _ _ _ _ => rfl)) rfl⟩

/-- C2: evaluation of the divergence between the mask the code builds and
the mask the claim describes.  With target_face.bbox = (1, 1, 2, 2) on a
6 x 6 image, the code (which unpacks the bbox as x, y, w, h and fills the
rectangle from (x, y) to (x + w, y + h)) sets the pre-blur mask to 1.0 at
pixel (3, 3), while the bounding-box region from (x0, y0) to (x1, y1)
described by the claim excludes that pixel. -/
theorem C2_mask_divergence :
    maskPre 6 6 (BBoxI.mk 1 1 2 2) 3 3 = 1 ∧
    maskClaimed 6 6 (BBoxI.mk 1 1 2 2) 3 3 = 0 := by
  decide

/-- C3: for every non-empty sequence of detected faces, select_source_face
returns the element at index 0, and the target-face selection expression
of face_swap (line 190) evaluates to the element at index 0, in
detector-returned order, for any face values whatsoever. -/
theorem C3_first_face_selected (f : Face) (rest : List Face) (o : Oracle) (w : World) :
    (select_source_face (some (f :: rest)) o w).1 = .ok (some f, none) ∧
    (pyIndex0 (some (f :: rest)) o w).1 = .ok f :=
  ⟨rfl, rfl⟩

/-- C4: for every pair of inputs (None images included) and every oracle
behaviour (so for inputs that make any internal stage raise), face_swap
never propagates an exception: the outcome is always a normal pair whose
image slot is None (error results, with the log text as the detail
string) or the fixed output path. -/
theorem C4_no_exception_escapes (o : Oracle) (si ti : Option PImg) (w : World) :
    ∃ a, (face_swap si ti o w).1 = .ok a ∧ (a.1 = none ∨ a.1 = some output_path) :=
  (@tc_face_swap_shape o si ti w).2

/-- C5: the blending step of perform_face_swap preserves the dimensions of
the target raster, given the face-swap model contract that the swapped
raster it returns has the dimensions of the target (the channel count is
fixed at 3 by construction). -/
theorem C5_swap_preserves_dims (g : Int → ℚ) (swapped target : Raster) (bb : BBoxI)
    (h1 : swapped.h = target.h) (h2 : swapped.w = target.w) :
    (performSwapBlend g swapped target bb).h = target.h ∧
    (performSwapBlend g swapped target bb).w = target.w :=
  ⟨h1, h2⟩

/-- Witness for C5 at concrete rasters. -/
theorem C5_swap_preserves_dims_witness :
    ((unif1 3).h = (unif1 5).h ∧ (unif1 3).w = (unif1 5).w) ∧
    ((performSwapBlend deltaK (unif1 3) (unif1 5) bbZero).h = (unif1 5).h ∧
      (performSwapBlend deltaK (unif1 3) (unif1 5) bbZero).w = (unif1 5).w) :=
  ⟨⟨rfl, rfl⟩, C5_swap_preserves_dims deltaK (unif1 3) (unif1 5) bbZero rfl rfl⟩

/-- C6, counterexample: the claim as stated is false.  cv2.rectangle fills
its corner pixel even for a zero-area box, so on a 1 x 1 target with the
zero-area box (0, 0, 0, 0), original pixel 0 and swapped pixel 255, the
blend returns the swapped image, not the original. -/
theorem C6_zero_area_counterexample : ¬ C6asStated := by
  intro hC
  have h1 := hC deltaK validKernel9_deltaK (unif1 255) (unif1 0) bbZero rfl rfl
    (by decide)
  have h2 : performSwapBlend deltaK (unif1 255) (unif1 0) bbZero = unif1 255 :=
    blend_unif1 deltaK validKernel9_deltaK 255 0 (by norm_num)
  have h3 : unif1 255 = unif1 0 := h2.symm.trans h1
  have h4 := congrArg (fun r => r.px 0 0 0) h3
  simp [unif1] at h4

/-- C6, amended: a call with the zero-area bounding box at the origin does
not return the original image; the mask still covers the corner pixel, and
for a 1 x 1 target the result equals the swapped image (for every
normalised 9-tap kernel). -/
theorem C6_zero_area_amended (g : Int → ℚ) (hg : validKernel9 g) (s t : Nat)
    (hs : s < 256) :
    performSwapBlend g (unif1 s) (unif1 t) bbZero = unif1 s :=
  blend_unif1 g hg s t hs

/-- Witness for the amended C6 at the concrete kernel deltaK. -/
theorem C6_zero_area_amended_witness :
    (validKernel9 deltaK ∧ 255 < 256) ∧
    performSwapBlend deltaK (unif1 255) (unif1 7) bbZero = unif1 255 :=
  ⟨⟨validKernel9_deltaK, by norm_num⟩,
    C6_zero_area_amended deltaK validKernel9_deltaK 255 7 (by norm_num)⟩

/-- C7: on an empty sequence of detected faces, face selection does not
raise and does not return a face: it returns None together with an error
detail (the joined log, ending with the caught IndexError text). -/
theorem C7_empty_selection_error (o : Oracle) (w : World) :
    (select_source_face (some []) o w).1 =
      .ok (none, some ("\n".intercalate ((w.logs ++ ["Selecting source face..."]) ++
        ["Error selecting source face: list index out of range"]))) :=
  rfl

/-- C8, counterexample: validate_paths does not fetch an absent model
file; on a world with an empty filesystem the file is still absent after
the call (and the result is an error naming the path). -/
theorem C8_fetch_counterexample :
    ¬ (∀ (o : Oracle) (w : World), ¬ isfile w model_path →
        isfile (validate_paths o w).2 model_path) := by
  intro h
  exact absurd (h okO emptyW (by decide)) (by decide)

/-- C8, amended: validate_paths only checks local existence; it never
modifies the filesystem, succeeds exactly when every required path is
present, and a repeated call returns the same result (idempotent, with
zero fetches ever). -/
theorem C8_checks_only_amended (o : Oracle) (w : World) :
    (validate_paths o w).2.files = w.files ∧
    (validate_paths o w).2.dirs = w.dirs ∧
    (validate_paths o w).1 = .ok (validate_paths_check w) ∧
    ((validate_paths_check w).1 = true ↔
      (isfile w model_path ∧ isfile w gfpgan_path ∧ isdir w buffalo_l_path ∧
        ∀ f ∈ required_files, pyexists w (buffalo_l_path ++ "/" ++ f))) ∧
    (validate_paths o (validate_paths o w).2).1 = (validate_paths o w).1 := by
  refine ⟨rfl, rfl, rfl, ?_, rfl⟩
  by_cases h1 : isfile w model_path
  · by_cases h2 : isfile w gfpgan_path
    · by_cases h3 : isdir w buffalo_l_path
      · by_cases h4 : required_files.all
            (fun f => decide (pyexists w (buffalo_l_path ++ "/" ++ f))) = true
        · simp_all [validate_paths_check, List.all_eq_true, decide_eq_true_eq]
        · simp_all [validate_paths_check, List.all_eq_true, decide_eq_true_eq]
      · simp_all [validate_paths_check]
    · simp_all [validate_paths_check]
  · simp_all [validate_paths_check]

/-- C9, counterexample: the model handles are not process-wide state
created at most once: across two consecutive successful face_swap calls,
each of the three model initialisations happens twice, not at most
once. -/
theorem C9_reinit_counterexample :
    ¬ (twoRunTrace.count Ev.initFA ≤ 1 ∧ twoRunTrace.count Ev.loadSwapper ≤ 1 ∧
        twoRunTrace.count Ev.initGfpgan ≤ 1) := by
  decide

/-- C9, amended: every call re-initialises the three models: two
consecutive successful requests perform each initialisation exactly
twice. -/
theorem C9_reinit_amended :
    resultPath firstRun.1 = some output_path ∧
    resultPath secondRun.1 = some output_path ∧
    twoRunTrace.count Ev.initFA = 2 ∧
    twoRunTrace.count Ev.loadSwapper = 2 ∧
    twoRunTrace.count Ev.initGfpgan = 2 :=
  ⟨rfl, rfl, by decide, by decide, by decide⟩

/-- C10: on every invocation (with the directory operations succeeding),
face_swap first deletes the output directory when it exists and recreates
it, before any validation or model work: the trace starts with exactly
those directory events; and on success the returned path is always the
fixed output/output.jpg. -/
theorem C10_output_dir_reset (o : Oracle) (si ti : Option PImg) (w : World)
    (hw : w.trace = []) (hrm : o.rmtree = .ok ()) (hmk : o.makedirs = .ok ()) :
    (∃ rest, (face_swap si ti o w).2.trace =
      (if pyexists w output_dir then [Ev.rmtreeOut, Ev.mkdirsOut]
        else [Ev.mkdirsOut]) ++ rest) ∧
    (∀ a p, (face_swap si ti o w).1 = .ok a → a.1 = some p → p = output_path) := by
  constructor
  · by_cases hex : pyexists w output_dir
    · obtain ⟨δ, hδ⟩ := tryE_post_trace o si ti (dirResetWorld { w with logs := [] })
      have h2 : face_swap si ti o w =
          tryE (face_swap_post si ti)
            (fun e => bindE (log_message ("Unexpected error in face_swap: " ++ e)) fun j =>
              ret (none, j)) o (dirResetWorld { w with logs := [] }) := by
        show tryE (face_swap_body si ti) _ o { w with logs := [] } = _
        unfold tryE
        rw [body_run_eq_pos o si ti { w with logs := [] } hrm hmk hex]
      refine ⟨δ, ?_⟩
      rw [h2, hδ, if_pos hex]
      simp [dirResetWorld, hw]
    · obtain ⟨δ, hδ⟩ := tryE_post_trace o si ti (dirMakeWorld { w with logs := [] })
      have h2 : face_swap si ti o w =
          tryE (face_swap_post si ti)
            (fun e => bindE (log_message ("Unexpected error in face_swap: " ++ e)) fun j =>
              ret (none, j)) o (dirMakeWorld { w with logs := [] }) := by
        show tryE (face_swap_body si ti) _ o { w with logs := [] } = _
        unfold tryE
        rw [body_run_eq_neg o si ti { w with logs := [] } hmk hex]
      refine ⟨δ, ?_⟩
      rw [h2, hδ, if_neg hex]
      simp [dirMakeWorld, hw]
  · intro a p h1 h2
    obtain ⟨a2, h3, h4⟩ := (@tc_face_swap_shape o si ti w).2
    have ha : a = a2 := Except.ok.inj (h1.symm.trans h3)
    subst ha
    rcases h4 with h4 | h4
    · rw [h2] at h4
      cases h4
    · rw [h2] at h4
      exact Option.some.inj h4

/-- Witness for C10 at the all-success oracle and the ready world. -/
theorem C10_output_dir_reset_witness :
    (readyW.trace = [] ∧ okO.rmtree = .ok () ∧ okO.makedirs = .ok ()) ∧
    ((∃ rest, (face_swap (some 0) (some 1) okO readyW).2.trace =
      (if pyexists readyW output_dir then [Ev.rmtreeOut, Ev.mkdirsOut]
        else [Ev.mkdirsOut]) ++ rest) ∧
    (∀ a p, (face_swap (some 0) (some 1) okO readyW).1 = .ok a →
      a.1 = some p → p = output_path)) :=
  ⟨⟨rfl, rfl, rfl⟩,
    C10_output_dir_reset okO (some 0) (some 1) readyW rfl rfl rfl⟩

end FaceSwap
